import Mathlib

/-!
Verification of the metrics-analysis core of `src/scripts/diagnostics.py`
(Dynatrace OpenTelemetry Collector diagnostics script).

Shallow embedding conventions:
* Python `float` values are modelled as `ℚ` (the script only ever does
  exact arithmetic on parsed decimal literals: sums, one guarded division
  and a multiplication by 100).
* Strings are processed as their character lists, so that every scanning
  primitive is structurally recursive; splitting (`str.split`) and
  prefix/substring tests mirror Python's semantics on those lists.
* `float(s)` on a whitespace-free token is modelled by `pyFloatTok?`, a
  parser for signed decimal literals with optional fractional part and
  optional exponent; exotic accepted forms (`inf`, `nan`, underscore digit
  separators) are not modelled, and no claim depends on them.
* Python's `or` chains (`a or b or 0`), in which `None` and `0.0` are both
  falsy, are modelled by `pyOrD`.
* Fallible extraction (`parse_metric_value` returning `None`) is `Option ℚ`.
-/

/-- Split a character list at every character satisfying `p`, keeping
empty pieces, like Python `text.split('\n')` for a single-character
separator. -/
def splitOnPred (p : Char → Bool) : List Char → List (List Char)
  | [] => [[]]
  | c :: cs =>
    if p c then [] :: splitOnPred p cs
    else
      match splitOnPred p cs with
      | [] => [[c]]
      | l :: ls => (c :: l) :: ls

/-- Digits-to-number accumulator, used by the decimal literal parser. -/
def digitsToNat (cs : List Char) : Nat :=
  cs.foldl (fun a c => a * 10 + (c.toNat - 48)) 0

/-- Parse an unsigned decimal literal `digits[.digits][(e|E)[±]digits]`
(at least one digit in the mantissa), the whole input consumed.
Models the unsigned part of Python `float()` on a token. -/
def parseUnsignedFloat (cs : List Char) : Option ℚ :=
  let (ip, r1) := cs.span Char.isDigit
  let (fp, r2) :=
    match r1 with
    | '.' :: r => r.span Char.isDigit
    | _ => ([], r1)
  if ip.isEmpty ∧ fp.isEmpty then none
  else
    let mant : ℚ := (digitsToNat (ip ++ fp) : ℚ) / ((10 : ℚ) ^ fp.length)
    match r2 with
    | [] => some mant
    | e :: r3 =>
      if e = 'e' ∨ e = 'E' then
        let (esgn, r4) :=
          match r3 with
          | '-' :: r => ((-1 : Int), r)
          | '+' :: r => ((1 : Int), r)
          | r => ((1 : Int), r)
        let (ed, r5) := r4.span Char.isDigit
        if ed.isEmpty ∨ ¬ r5.isEmpty then none
        else some (mant * (10 : ℚ) ^ (esgn * (digitsToNat ed : Int)))
      else none

/-- Model of Python `float(token)` on a whitespace-free token:
optional sign, then an unsigned decimal literal. `none` models the
`ValueError` branch. -/
def pyFloatTok? : List Char → Option ℚ
  | '-' :: r => (parseUnsignedFloat r).map (fun q => -q)
  | '+' :: r => parseUnsignedFloat r
  | r => parseUnsignedFloat r

/-- Model of Python `line.split()`: split on whitespace, dropping empty
pieces. -/
def pySplitWs (cs : List Char) : List (List Char) :=
  (splitOnPred Char.isWhitespace cs).filter (fun t => ¬ t.isEmpty)

/-- Model of Python `line.split()[-1]` guarded by the `IndexError` handler:
the last whitespace-delimited token of the line, if any. -/
def lastTok? (line : List Char) : Option (List Char) :=
  (pySplitWs line).getLast?

/-- Model of the Python substring test `needle in haystack` on character
lists: `needle` occurs contiguously in `haystack`. -/
def substrIn (needle : List Char) : List Char → Bool
  | [] => needle.isEmpty
  | c :: cs => needle.isPrefixOf (c :: cs) || substrIn needle cs

/-- Model of Python `a or b` where `a : Optional[float]` and the result
falls back to `b` when `a` is falsy (`None` or `0.0`). -/
def pyOrD (a : Option ℚ) (b : ℚ) : ℚ :=
  match a with
  | some v => if v = 0 then b else v
  | none => b

/-- State of the `CollectorDiagnostics` class (from `__init__`). -/
structure CollectorDiagnostics where
  host : String
  health_url : String
  metrics_url : String
  zpages_url : String
deriving DecidableEq, Repr

/-- `CollectorDiagnostics.__init__(host)`. -/
def CollectorDiagnostics.init (host : String) : CollectorDiagnostics :=
  { host := host
    health_url := "http://" ++ host ++ ":13133/health"
    metrics_url := "http://" ++ host ++ ":8888/metrics"
    zpages_url := "http://" ++ host ++ ":55679/debug/" }

/-- The per-line scanning loop of `parse_metric_value`: lines in document
order; a line is considered when the metric name is a literal prefix of the
line; if `labels` is non-empty it must occur as a substring of the line;
the last whitespace token is parsed as a float, a parse failure continues
the scan. -/
def findMetricLine (metric_name labels : List Char) :
    List (List Char) → Option ℚ
  | [] => none
  | line :: rest =>
    if metric_name.isPrefixOf line then
      if labels ≠ [] ∧ ¬ substrIn labels line then
        findMetricLine metric_name labels rest
      else
        match lastTok? line >>= pyFloatTok? with
        | some v => some v
        | none => findMetricLine metric_name labels rest
    else findMetricLine metric_name labels rest

/-- `CollectorDiagnostics.parse_metric_value(metrics_text, metric_name,
labels="")` (lines 61–76 of the script): split the text on newlines and
scan with `findMetricLine`. -/
def parse_metric_value (_self : CollectorDiagnostics)
    (metrics_text metric_name : String) (labels : String := "") : Option ℚ :=
  findMetricLine metric_name.data labels.data
    (splitOnPred (fun c => c = '\n') metrics_text.data)

/-- The `ExportAnalysis` record: the keys of the `analysis` dict built by
`analyze_export_metrics`. -/
structure ExportAnalysis where
  otlphttp_sent_metrics : ℚ
  otlphttp_failed_metrics : ℚ
  otlphttp_queue_size : ℚ
  otlphttp_queue_capacity : ℚ
  total_received_metrics : ℚ
  success_rate : ℚ
  queue_utilization : ℚ
deriving DecidableEq, Repr

/-- The per-field two-alternative fallback pattern of
`analyze_export_metrics`: `parse(name1) or parse(name2) or 0` with
Python truthiness. -/
def orAlt (self : CollectorDiagnostics) (t name1 name2 labels : String) : ℚ :=
  pyOrD (parse_metric_value self t name1 labels)
    (pyOrD (parse_metric_value self t name2 labels) 0)

/-- `analysis['otlphttp_sent_metrics']` (lines 91–94). -/
def sentMetricsOf (self : CollectorDiagnostics) (t : String) : ℚ :=
  orAlt self t "otelcol_exporter_sent_metric_points__datapoints__total"
    "otelcol_exporter_sent_metric_points_total" "exporter=\"otlphttp\""

/-- `analysis['otlphttp_failed_metrics']` (lines 96–99). -/
def failedMetricsOf (self : CollectorDiagnostics) (t : String) : ℚ :=
  orAlt self t "otelcol_exporter_send_failed_metric_points__datapoints__total"
    "otelcol_exporter_send_failed_metric_points_total" "exporter=\"otlphttp\""

/-- `analysis['otlphttp_queue_size']` (lines 101–104). -/
def queueSizeOf (self : CollectorDiagnostics) (t : String) : ℚ :=
  orAlt self t "otelcol_exporter_queue_size__batches_"
    "otelcol_exporter_queue_size" "exporter=\"otlphttp\""

/-- `analysis['otlphttp_queue_capacity']` (lines 106–109). -/
def queueCapacityOf (self : CollectorDiagnostics) (t : String) : ℚ :=
  orAlt self t "otelcol_exporter_queue_capacity__batches_"
    "otelcol_exporter_queue_capacity" "exporter=\"otlphttp\""

/-- `analysis['total_received_metrics']` (lines 112–115; no label filter,
the `labels` parameter keeps its default `""`). -/
def totalReceivedOf (self : CollectorDiagnostics) (t : String) : ℚ :=
  orAlt self t "otelcol_receiver_accepted_metric_points__datapoints__total"
    "otelcol_receiver_accepted_metric_points_total" ""

/-- `CollectorDiagnostics.analyze_export_metrics(metrics_text)`
(lines 78–126): the five extracted base fields, then the guarded derived
ratios. -/
def analyze_export_metrics (self : CollectorDiagnostics)
    (metrics_text : String) : ExportAnalysis :=
  { otlphttp_sent_metrics := sentMetricsOf self metrics_text
    otlphttp_failed_metrics := failedMetricsOf self metrics_text
    otlphttp_queue_size := queueSizeOf self metrics_text
    otlphttp_queue_capacity := queueCapacityOf self metrics_text
    total_received_metrics := totalReceivedOf self metrics_text
    success_rate :=
      if sentMetricsOf self metrics_text + failedMetricsOf self metrics_text > 0 then
        sentMetricsOf self metrics_text /
          (sentMetricsOf self metrics_text + failedMetricsOf self metrics_text) * 100
      else 0
    queue_utilization :=
      if queueCapacityOf self metrics_text > 0 then
        queueSizeOf self metrics_text / queueCapacityOf self metrics_text * 100
      else 0 }

/-- Export-health tiers printed by `print_status_assessment`. -/
inductive ExportTier
  | EXCELLENT
  | GOOD
  | DEGRADED
  | CRITICAL
deriving DecidableEq, Repr

/-- Queue-status tiers printed by `print_status_assessment`. -/
inductive QueueTier
  | HEALTHY
  | MODERATE
  | HIGH
deriving DecidableEq, Repr

/-- The `success_rate` if/elif/else chain of `print_status_assessment`
(lines 184–192). -/
def exportTier (success_rate : ℚ) : ExportTier :=
  if success_rate ≥ 95 then .EXCELLENT
  else if success_rate ≥ 80 then .GOOD
  else if success_rate ≥ 50 then .DEGRADED
  else .CRITICAL

/-- The `queue_util` if/elif/else chain of `print_status_assessment`
(lines 195–201). -/
def queueTier (queue_util : ℚ) : QueueTier :=
  if queue_util < 50 then .HEALTHY
  else if queue_util < 80 then .MODERATE
  else .HIGH

/-- The failure-remediation advisory lines printed when
`analysis['otlphttp_failed_metrics'] > 0` (lines 204–209), in print order. -/
def failureBlock : List String :=
  ["💡 RECOMMENDATIONS:",
   "   - Check Dynatrace API token permissions",
   "   - Verify DT_ENDPOINT configuration",
   "   - Review network connectivity to Dynatrace",
   "   - Check collector logs: docker-compose logs collector"]

/-- The queue-remediation advisory lines printed when `queue_util > 70`
(lines 211–215), in print order. -/
def queueBlock : List String :=
  ["💡 QUEUE RECOMMENDATIONS:",
   "   - Consider increasing queue_size in configuration",
   "   - Add more num_consumers for parallel processing",
   "   - Review batch processor settings"]

/-- The recommendation section of `print_status_assessment`
(lines 203–215): the two independent `if` statements run in source order,
each printing its block of lines. -/
def recommendationLines (analysis : ExportAnalysis) : List String :=
  (if analysis.otlphttp_failed_metrics > 0 then
    ["💡 RECOMMENDATIONS:",
     "   - Check Dynatrace API token permissions",
     "   - Verify DT_ENDPOINT configuration",
     "   - Review network connectivity to Dynatrace",
     "   - Check collector logs: docker-compose logs collector"]
   else []) ++
  (if analysis.queue_utilization > 70 then
    ["💡 QUEUE RECOMMENDATIONS:",
     "   - Consider increasing queue_size in configuration",
     "   - Add more num_consumers for parallel processing",
     "   - Review batch processor settings"]
   else [])

/-- Spec-side semantics of the per-field alternative chain as the claim
words it: the value of the first alternative that is present (including a
present value of 0), defaulting to 0 only when every alternative is
absent. -/
def firstPresentValue (p1 p2 : Option ℚ) : ℚ :=
  match p1 with
  | some v => v
  | none =>
    match p2 with
    | some w => w
    | none => 0

/-- Spec-side semantics of the per-field alternative chain as the code
actually behaves: the first alternative whose value is present and
non-zero; a present 0 is skipped like an absent value; 0 if every
alternative is absent or 0. -/
def firstNonzeroValue (p1 p2 : Option ℚ) : ℚ :=
  match p1 with
  | some v =>
    if v ≠ 0 then v
    else
      match p2 with
      | some w => if w ≠ 0 then w else 0
      | none => 0
  | none =>
    match p2 with
    | some w => if w ≠ 0 then w else 0
    | none => 0

/-- Spec-side restatement of the extractor scan, written from the claim:
lines in document order, a candidate iff the name is a prefix of the line
and (when given) the label substring occurs in the line; the result is the
first candidate whose final whitespace token parses as a float. -/
def parse_metric_value_spec (metrics_text metric_name labels : String) :
    Option ℚ :=
  (splitOnPred (fun c => c = '\n') metrics_text.data).findSome? (fun line =>
    if metric_name.data.isPrefixOf line ∧
        (labels = "" ∨ substrIn labels.data line) then
      lastTok? line >>= pyFloatTok?
    else none)

/-- Interval reading of the export-tier bands, from the claim: lower
bounds inclusive. -/
def exportBand : ExportTier → ℚ → Prop
  | .EXCELLENT, r => 95 ≤ r
  | .GOOD, r => 80 ≤ r ∧ r < 95
  | .DEGRADED, r => 50 ≤ r ∧ r < 80
  | .CRITICAL, r => r < 50

/-- Interval reading of the queue-tier bands, from the claim. -/
def queueBand : QueueTier → ℚ → Prop
  | .HEALTHY, u => u < 50
  | .MODERATE, u => 50 ≤ u ∧ u < 80
  | .HIGH, u => 80 ≤ u

/-- The default diagnostics object (`--host` default "localhost"),
used as the concrete receiver in witnesses and counterexamples. -/
def dDiag : CollectorDiagnostics := CollectorDiagnostics.init "localhost"

/-- Concrete exposition text: both naming conventions of the sent counter
present, the first (double-underscore) convention carrying the value 0 and
the second carrying 5. -/
def c1Text : String :=
  "otelcol_exporter_sent_metric_points__datapoints__total\x7bexporter=\"otlphttp\"\x7d 0\notelcol_exporter_sent_metric_points_total\x7bexporter=\"otlphttp\"\x7d 5"

/-- Concrete exposition text with a negative sent counter and a positive
failed counter. -/
def c6Text : String :=
  "otelcol_exporter_sent_metric_points_total\x7bexporter=\"otlphttp\"\x7d -5\notelcol_exporter_send_failed_metric_points_total\x7bexporter=\"otlphttp\"\x7d 10"

/-- Concrete exposition text with sent=95, failed=5, queue size 75 and
queue capacity 100. -/
def w3Text : String :=
  "otelcol_exporter_sent_metric_points_total\x7bexporter=\"otlphttp\"\x7d 95\notelcol_exporter_send_failed_metric_points_total\x7bexporter=\"otlphttp\"\x7d 5\notelcol_exporter_queue_size\x7bexporter=\"otlphttp\"\x7d 75\notelcol_exporter_queue_capacity\x7bexporter=\"otlphttp\"\x7d 100"

/-- Concrete exposition text with sent=95 and no failed-counter line. -/
def w6Text : String :=
  "otelcol_exporter_sent_metric_points_total\x7bexporter=\"otlphttp\"\x7d 95"

/-- Concrete exposition text whose only candidate line for the sent
counter carries a final token that does not parse as a float. -/
def w7Text : String :=
  "otelcol_exporter_sent_metric_points_total\x7bexporter=\"otlphttp\"\x7d abc"

/-- Concrete exposition text with queue size 10 and a negative reported
queue capacity. -/
def c8Text : String :=
  "otelcol_exporter_queue_size\x7bexporter=\"otlphttp\"\x7d 10\notelcol_exporter_queue_capacity\x7bexporter=\"otlphttp\"\x7d -5"

/-! ### Helper lemmas -/

lemma pyOrD_chain_eq_firstNonzero (a b : Option ℚ) :
    pyOrD a (pyOrD b 0) = firstNonzeroValue a b := by
  cases a with
  | none =>
    cases b with
    | none => rfl
    | some w => by_cases hw : w = 0 <;> simp [pyOrD, firstNonzeroValue, hw]
  | some v =>
    cases b with
    | none => by_cases hv : v = 0 <;> simp [pyOrD, firstNonzeroValue, hv]
    | some w =>
      by_cases hv : v = 0 <;> by_cases hw : w = 0 <;>
        simp [pyOrD, firstNonzeroValue, hv, hw]

lemma exportBand_exportTier (r : ℚ) : exportBand (exportTier r) r := by
  unfold exportTier
  split_ifs with h1 h2 h3
  · exact h1
  · exact ⟨h2, not_le.mp h1⟩
  · exact ⟨h3, not_le.mp h2⟩
  · exact not_le.mp h3

lemma exportTier_eq_of_band (r : ℚ) (t : ExportTier) (h : exportBand t r) :
    exportTier r = t := by
  unfold exportTier
  cases t
  · exact if_pos h
  · obtain ⟨ha, hb⟩ := h
    rw [if_neg (not_le.mpr hb), if_pos ha]
  · obtain ⟨ha, hb⟩ := h
    rw [if_neg (not_le.mpr (by linarith : r < 95)),
      if_neg (not_le.mpr hb), if_pos ha]
  · have h' : r < 50 := h
    rw [if_neg (not_le.mpr (by linarith : r < 95)),
      if_neg (not_le.mpr (by linarith : r < 80)),
      if_neg (not_le.mpr h')]

lemma exportTier_eq_iff (r : ℚ) (t : ExportTier) :
    exportTier r = t ↔ exportBand t r :=
  ⟨fun h => h ▸ exportBand_exportTier r, exportTier_eq_of_band r t⟩

lemma queueBand_queueTier (u : ℚ) : queueBand (queueTier u) u := by
  unfold queueTier
  split_ifs with h1 h2
  · exact h1
  · exact ⟨not_lt.mp h1, h2⟩
  · exact not_lt.mp h2

lemma queueTier_eq_of_band (u : ℚ) (t : QueueTier) (h : queueBand t u) :
    queueTier u = t := by
  unfold queueTier
  cases t
  · exact if_pos h
  · obtain ⟨ha, hb⟩ := h
    rw [if_neg (not_lt.mpr ha), if_pos hb]
  · have h' : (80 : ℚ) ≤ u := h
    rw [if_neg (not_lt.mpr (by linarith : (50 : ℚ) ≤ u)),
      if_neg (not_lt.mpr h')]

lemma queueTier_eq_iff (u : ℚ) (t : QueueTier) :
    queueTier u = t ↔ queueBand t u :=
  ⟨fun h => h ▸ queueBand_queueTier u, queueTier_eq_of_band u t⟩

/-! ### Claims -/

/-- C10: `analyze_export_metrics` is deterministic and depends only on its
metrics-text argument: for equal input texts the resulting `ExportAnalysis`
records are equal, with no dependence on the `CollectorDiagnostics` object
state (host and derived URLs). -/
theorem claimC10_analyze_deterministic
    (self1 self2 : CollectorDiagnostics) (t1 t2 : String) (h : t1 = t2) :
    analyze_export_metrics self1 t1 = analyze_export_metrics self2 t2 := by
  subst h; rfl

/-- Witness for C10 at concrete inputs: two distinct host configurations
and the same text give the same analysis. -/
theorem claimC10_witness :
    analyze_export_metrics dDiag "x 1" =
      analyze_export_metrics (CollectorDiagnostics.init "example.com") "x 1" :=
  claimC10_analyze_deterministic dDiag (CollectorDiagnostics.init "example.com")
    "x 1" "x 1" rfl

/-- C3: `success_rate` equals sent / (sent + failed) * 100 exactly when the
denominator is positive and 0 otherwise, and `queue_utilization` equals
size / capacity * 100 when capacity is positive and is exactly 0 whenever
capacity is 0, for every analysis produced by `analyze_export_metrics`;
division only ever happens under a positive-denominator guard. -/
theorem claimC3_derived_ratios (self : CollectorDiagnostics) (t : String) :
    (0 < (analyze_export_metrics self t).otlphttp_sent_metrics +
        (analyze_export_metrics self t).otlphttp_failed_metrics →
      (analyze_export_metrics self t).success_rate =
        (analyze_export_metrics self t).otlphttp_sent_metrics /
          ((analyze_export_metrics self t).otlphttp_sent_metrics +
            (analyze_export_metrics self t).otlphttp_failed_metrics) * 100) ∧
    (¬ 0 < (analyze_export_metrics self t).otlphttp_sent_metrics +
        (analyze_export_metrics self t).otlphttp_failed_metrics →
      (analyze_export_metrics self t).success_rate = 0) ∧
    (0 < (analyze_export_metrics self t).otlphttp_queue_capacity →
      (analyze_export_metrics self t).queue_utilization =
        (analyze_export_metrics self t).otlphttp_queue_size /
          (analyze_export_metrics self t).otlphttp_queue_capacity * 100) ∧
    ((analyze_export_metrics self t).otlphttp_queue_capacity = 0 →
      (analyze_export_metrics self t).queue_utilization = 0) := by
  refine ⟨fun h => ?_, fun h => ?_, fun h => ?_, fun h => ?_⟩
  · exact if_pos h
  · exact if_neg h
  · exact if_pos h
  · have h' : queueCapacityOf self t = 0 := h
    exact if_neg (by rw [h']; exact lt_irrefl 0)

section WitnessEvaluation

attribute [local semireducible] Rat.add Rat.mul Rat.inv Rat.sub

/-- Witness for C3 at a concrete metrics text with sent=95, failed=5,
size=75, capacity=100. -/
theorem claimC3_witness :
    (analyze_export_metrics dDiag w3Text).success_rate =
      (analyze_export_metrics dDiag w3Text).otlphttp_sent_metrics /
        ((analyze_export_metrics dDiag w3Text).otlphttp_sent_metrics +
          (analyze_export_metrics dDiag w3Text).otlphttp_failed_metrics) * 100 ∧
    (analyze_export_metrics dDiag w3Text).queue_utilization =
      (analyze_export_metrics dDiag w3Text).otlphttp_queue_size /
        (analyze_export_metrics dDiag w3Text).otlphttp_queue_capacity * 100 :=
  ⟨(claimC3_derived_ratios dDiag w3Text).1 (by decide),
   (claimC3_derived_ratios dDiag w3Text).2.2.1 (by decide)⟩

end WitnessEvaluation

/-- C4: the classifier's export tier is EXCELLENT iff successRate ≥ 95,
GOOD iff 80 ≤ successRate < 95, DEGRADED iff 50 ≤ successRate < 80 and
CRITICAL iff successRate < 50 (band lower bounds inclusive), and the queue
tier is HEALTHY iff queueUtilization < 50, MODERATE iff
50 ≤ queueUtilization < 80 and HIGH iff queueUtilization ≥ 80, for every
analysis. -/
theorem claimC4_tier_thresholds (a : ExportAnalysis) :
    (exportTier a.success_rate = ExportTier.EXCELLENT ↔ 95 ≤ a.success_rate) ∧
    (exportTier a.success_rate = ExportTier.GOOD ↔
      80 ≤ a.success_rate ∧ a.success_rate < 95) ∧
    (exportTier a.success_rate = ExportTier.DEGRADED ↔
      50 ≤ a.success_rate ∧ a.success_rate < 80) ∧
    (exportTier a.success_rate = ExportTier.CRITICAL ↔ a.success_rate < 50) ∧
    (queueTier a.queue_utilization = QueueTier.HEALTHY ↔
      a.queue_utilization < 50) ∧
    (queueTier a.queue_utilization = QueueTier.MODERATE ↔
      50 ≤ a.queue_utilization ∧ a.queue_utilization < 80) ∧
    (queueTier a.queue_utilization = QueueTier.HIGH ↔
      80 ≤ a.queue_utilization) :=
  ⟨exportTier_eq_iff _ _, exportTier_eq_iff _ _, exportTier_eq_iff _ _,
   exportTier_eq_iff _ _, queueTier_eq_iff _ _, queueTier_eq_iff _ _,
   queueTier_eq_iff _ _⟩

/-- Witness for C4 at the boundary analysis successRate = 95,
queueUtilization = 75: the export tier is EXCELLENT (inclusive bound) and
the queue tier is MODERATE. -/
theorem claimC4_witness :
    exportTier (ExportAnalysis.mk 95 5 75 100 0 95 75).success_rate =
      ExportTier.EXCELLENT ∧
    queueTier (ExportAnalysis.mk 95 5 75 100 0 95 75).queue_utilization =
      QueueTier.MODERATE :=
  ⟨(claimC4_tier_thresholds (ExportAnalysis.mk 95 5 75 100 0 95 75)).1.mpr
      (by norm_num),
   (claimC4_tier_thresholds (ExportAnalysis.mk 95 5 75 100 0 95 75)).2.2.2.2.2.1.mpr
      (by norm_num)⟩

/-- C9: for every analysis, whatever the (possibly negative or
above-100) values of successRate and queueUtilization, the threshold bands
are exhaustive and mutually exclusive — there is exactly one export band
and exactly one queue band containing the value — and the classifier lands
in that band. -/
theorem claimC9_classification_total (a : ExportAnalysis) :
    (∃! t : ExportTier, exportBand t a.success_rate) ∧
    (∃! t : QueueTier, queueBand t a.queue_utilization) ∧
    exportBand (exportTier a.success_rate) a.success_rate ∧
    queueBand (queueTier a.queue_utilization) a.queue_utilization :=
  ⟨⟨exportTier a.success_rate, exportBand_exportTier _,
      fun t ht => (exportTier_eq_of_band _ t ht).symm⟩,
   ⟨queueTier a.queue_utilization, queueBand_queueTier _,
      fun t ht => (queueTier_eq_of_band _ t ht).symm⟩,
   exportBand_exportTier _, queueBand_queueTier _⟩

/-- Witness for C9 at an out-of-range analysis (successRate 120,
queueUtilization −3): the classifier still lands in a band on each axis. -/
theorem claimC9_witness :
    exportBand (exportTier (ExportAnalysis.mk 0 0 0 0 0 120 (-3)).success_rate)
      (ExportAnalysis.mk 0 0 0 0 0 120 (-3)).success_rate ∧
    queueBand (queueTier (ExportAnalysis.mk 0 0 0 0 0 120 (-3)).queue_utilization)
      (ExportAnalysis.mk 0 0 0 0 0 120 (-3)).queue_utilization :=
  ⟨(claimC9_classification_total (ExportAnalysis.mk 0 0 0 0 0 120 (-3))).2.2.1,
   (claimC9_classification_total (ExportAnalysis.mk 0 0 0 0 0 120 (-3))).2.2.2⟩

/-- C5: the failure-remediation block is emitted iff failedMetrics > 0 and
the queue-remediation block iff queueUtilization > 70; each block keeps its
fixed internal order, the failure block precedes the queue block when both
fire, and the recommendation list is empty when neither condition holds. -/
theorem claimC5_recommendations (a : ExportAnalysis) :
    (a.otlphttp_failed_metrics > 0 ↔ failureBlock <+: recommendationLines a) ∧
    (a.queue_utilization > 70 ↔ queueBlock <:+ recommendationLines a) ∧
    (a.otlphttp_failed_metrics > 0 → a.queue_utilization > 70 →
      recommendationLines a = failureBlock ++ queueBlock) ∧
    (¬ a.otlphttp_failed_metrics > 0 → ¬ a.queue_utilization > 70 →
      recommendationLines a = []) := by
  unfold recommendationLines
  split_ifs with hf hq hq'
  · exact ⟨iff_of_true hf (List.prefix_append _ _),
      iff_of_true hq (List.suffix_append _ _),
      fun _ _ => rfl,
      fun hfa _ => absurd hf hfa⟩
  · exact ⟨iff_of_true hf (List.prefix_append _ _),
      iff_of_false hq (by decide),
      fun _ hqa => absurd hqa hq,
      fun hfa _ => absurd hf hfa⟩
  · exact ⟨iff_of_false hf (by decide),
      iff_of_true hq' List.suffix_rfl,
      fun hfa _ => absurd hfa hf,
      fun _ hqa => absurd hq' hqa⟩
  · exact ⟨iff_of_false hf (by decide),
      iff_of_false hq' (by decide),
      fun hfa _ => absurd hfa hf,
      fun _ _ => rfl⟩

/-- Witness for C5 at the analysis failed=5, queueUtilization=80: both
blocks fire and the failure block comes first. -/
theorem claimC5_witness :
    recommendationLines (ExportAnalysis.mk 90 5 80 100 0 (4500/50) 80) =
      failureBlock ++ queueBlock :=
  (claimC5_recommendations (ExportAnalysis.mk 90 5 80 100 0 (4500/50) 80)).2.2.1
    (by norm_num) (by norm_num)

lemma findMetricLine_eq_findSome (name labels : List Char)
    (lines : List (List Char)) :
    findMetricLine name labels lines =
      lines.findSome? (fun line =>
        if name.isPrefixOf line ∧ (labels = [] ∨ substrIn labels line) then
          lastTok? line >>= pyFloatTok?
        else none) := by
  induction lines with
  | nil => rfl
  | cons line rest ih =>
    rw [List.findSome?_cons]
    by_cases hp : name.isPrefixOf line
    · by_cases hl : labels = [] ∨ substrIn labels line
      · rw [if_pos ⟨hp, hl⟩]
        have hskip : ¬ (labels ≠ [] ∧ ¬ substrIn labels line) := by
          rcases hl with h | h
          · exact fun hc => hc.1 h
          · exact fun hc => hc.2 h
        rw [findMetricLine, if_pos hp, if_neg hskip]
        cases hv : lastTok? line >>= pyFloatTok? with
        | none => exact ih
        | some v => rfl
      · rw [if_neg (fun hc => hl hc.2),
          findMetricLine, if_pos hp,
          if_pos (⟨fun he => hl (Or.inl he), fun hs => hl (Or.inr hs)⟩ :
            labels ≠ [] ∧ ¬ substrIn labels line)]
        exact ih
    · rw [if_neg (fun hc => hp hc.1), findMetricLine, if_neg hp]
      exact ih

/-- C2: the extractor scans lines in document order, a line is a candidate
iff it starts with the metric name (prefix match) and, when a label
substring is given, contains it anywhere; the final whitespace token of
each surviving candidate is parsed as a float, a parse failure continues
the scan; the result is the first successfully parsed value, absent if no
line yields one — i.e. `parse_metric_value` coincides with the claim-side
scan `parse_metric_value_spec` on every input. -/
theorem claimC2_extractor_scan (self : CollectorDiagnostics)
    (t name labels : String) :
    parse_metric_value self t name labels =
      parse_metric_value_spec t name labels := by
  unfold parse_metric_value parse_metric_value_spec
  rw [findMetricLine_eq_findSome]
  have hnil : labels.data = [] ↔ labels = "" := by
    constructor
    · intro h
      cases labels with
      | mk d =>
        have hd : d = [] := h
        rw [hd]
    · intro h
      rw [h]
  have hfun : (fun line : List Char =>
      if name.data.isPrefixOf line ∧
          (labels.data = [] ∨ substrIn labels.data line) then
        lastTok? line >>= pyFloatTok?
      else none) =
      (fun line : List Char =>
        if name.data.isPrefixOf line ∧
            (labels = "" ∨ substrIn labels.data line) then
          lastTok? line >>= pyFloatTok?
        else none) := by
    funext line
    exact if_congr (and_congr_right fun _ => or_congr_left hnil) rfl rfl
  rw [hfun]

lemma analyze_sent (self : CollectorDiagnostics) (t : String) :
    (analyze_export_metrics self t).otlphttp_sent_metrics =
      sentMetricsOf self t := rfl

lemma analyze_failed (self : CollectorDiagnostics) (t : String) :
    (analyze_export_metrics self t).otlphttp_failed_metrics =
      failedMetricsOf self t := rfl

lemma analyze_success_rate (self : CollectorDiagnostics) (t : String) :
    (analyze_export_metrics self t).success_rate =
      if sentMetricsOf self t + failedMetricsOf self t > 0 then
        sentMetricsOf self t /
          (sentMetricsOf self t + failedMetricsOf self t) * 100
      else 0 := rfl

lemma orAlt_none (self : CollectorDiagnostics) (t n1 n2 l : String)
    (h1 : parse_metric_value self t n1 l = none)
    (h2 : parse_metric_value self t n2 l = none) :
    orAlt self t n1 n2 l = 0 := by
  unfold orAlt
  rw [h1, h2]
  rfl

/-- C1 (amended): `analyze_export_metrics` evaluates each base field's
alternatives left to right, but a field equals the value of the first
alternative that is present with a non-zero value; an alternative that is
present with value 0 is skipped like an absent one (Python `or` treats 0.0
as falsy), and the field is 0 when every alternative is absent or zero. -/
theorem claimC1_first_nonzero_alternative
    (self : CollectorDiagnostics) (t : String) :
    (analyze_export_metrics self t).otlphttp_sent_metrics =
      firstNonzeroValue
        (parse_metric_value self t
          "otelcol_exporter_sent_metric_points__datapoints__total"
          "exporter=\"otlphttp\"")
        (parse_metric_value self t
          "otelcol_exporter_sent_metric_points_total"
          "exporter=\"otlphttp\"") ∧
    (analyze_export_metrics self t).otlphttp_failed_metrics =
      firstNonzeroValue
        (parse_metric_value self t
          "otelcol_exporter_send_failed_metric_points__datapoints__total"
          "exporter=\"otlphttp\"")
        (parse_metric_value self t
          "otelcol_exporter_send_failed_metric_points_total"
          "exporter=\"otlphttp\"") ∧
    (analyze_export_metrics self t).otlphttp_queue_size =
      firstNonzeroValue
        (parse_metric_value self t "otelcol_exporter_queue_size__batches_"
          "exporter=\"otlphttp\"")
        (parse_metric_value self t "otelcol_exporter_queue_size"
          "exporter=\"otlphttp\"") ∧
    (analyze_export_metrics self t).otlphttp_queue_capacity =
      firstNonzeroValue
        (parse_metric_value self t "otelcol_exporter_queue_capacity__batches_"
          "exporter=\"otlphttp\"")
        (parse_metric_value self t "otelcol_exporter_queue_capacity"
          "exporter=\"otlphttp\"") ∧
    (analyze_export_metrics self t).total_received_metrics =
      firstNonzeroValue
        (parse_metric_value self t
          "otelcol_receiver_accepted_metric_points__datapoints__total" "")
        (parse_metric_value self t
          "otelcol_receiver_accepted_metric_points_total" "") :=
  ⟨pyOrD_chain_eq_firstNonzero _ _, pyOrD_chain_eq_firstNonzero _ _,
   pyOrD_chain_eq_firstNonzero _ _, pyOrD_chain_eq_firstNonzero _ _,
   pyOrD_chain_eq_firstNonzero _ _⟩

/-- C6 (amended): provided the extracted sent and failed counters are
non-negative, successRate is non-negative; it equals exactly 0 when both
counters are 0 and exactly 100 when failed = 0 and sent > 0. (Without the
non-negativity provision the original claim fails; see the
counterexample.) -/
theorem claimC6_success_rate_range (self : CollectorDiagnostics) (t : String)
    (hs : 0 ≤ (analyze_export_metrics self t).otlphttp_sent_metrics)
    (_hf : 0 ≤ (analyze_export_metrics self t).otlphttp_failed_metrics) :
    0 ≤ (analyze_export_metrics self t).success_rate ∧
    ((analyze_export_metrics self t).otlphttp_sent_metrics = 0 ∧
        (analyze_export_metrics self t).otlphttp_failed_metrics = 0 →
      (analyze_export_metrics self t).success_rate = 0) ∧
    ((analyze_export_metrics self t).otlphttp_failed_metrics = 0 ∧
        0 < (analyze_export_metrics self t).otlphttp_sent_metrics →
      (analyze_export_metrics self t).success_rate = 100) := by
  rw [analyze_sent] at hs
  rw [analyze_success_rate, analyze_sent, analyze_failed]
  refine ⟨?_, fun h => ?_, fun h => ?_⟩
  · split_ifs with hpos
    · exact mul_nonneg (div_nonneg hs (le_of_lt hpos)) (by norm_num)
    · exact le_refl 0
  · rw [if_neg (by rw [h.1, h.2]; norm_num)]
  · have hpos : sentMetricsOf self t + failedMetricsOf self t > 0 := by
      rw [h.1, add_zero]
      exact h.2
    rw [if_pos hpos, h.1, add_zero, div_self (ne_of_gt h.2)]
    norm_num

/-- C7: when every alternative query of a base field is absent from the
text (including when candidate lines exist but their final token never
parses as a float), `analyze_export_metrics` still returns a total result
with that field equal to 0; a parse failure on one line never aborts
extraction. -/
theorem claimC7_absent_defaults_zero
    (self : CollectorDiagnostics) (t : String) :
    (parse_metric_value self t
        "otelcol_exporter_sent_metric_points__datapoints__total"
        "exporter=\"otlphttp\"" = none ∧
      parse_metric_value self t "otelcol_exporter_sent_metric_points_total"
        "exporter=\"otlphttp\"" = none →
      (analyze_export_metrics self t).otlphttp_sent_metrics = 0) ∧
    (parse_metric_value self t
        "otelcol_exporter_send_failed_metric_points__datapoints__total"
        "exporter=\"otlphttp\"" = none ∧
      parse_metric_value self t
        "otelcol_exporter_send_failed_metric_points_total"
        "exporter=\"otlphttp\"" = none →
      (analyze_export_metrics self t).otlphttp_failed_metrics = 0) ∧
    (parse_metric_value self t "otelcol_exporter_queue_size__batches_"
        "exporter=\"otlphttp\"" = none ∧
      parse_metric_value self t "otelcol_exporter_queue_size"
        "exporter=\"otlphttp\"" = none →
      (analyze_export_metrics self t).otlphttp_queue_size = 0) ∧
    (parse_metric_value self t "otelcol_exporter_queue_capacity__batches_"
        "exporter=\"otlphttp\"" = none ∧
      parse_metric_value self t "otelcol_exporter_queue_capacity"
        "exporter=\"otlphttp\"" = none →
      (analyze_export_metrics self t).otlphttp_queue_capacity = 0) ∧
    (parse_metric_value self t
        "otelcol_receiver_accepted_metric_points__datapoints__total" ""
          = none ∧
      parse_metric_value self t
        "otelcol_receiver_accepted_metric_points_total" "" = none →
      (analyze_export_metrics self t).total_received_metrics = 0) :=
  ⟨fun h => orAlt_none self t _ _ _ h.1 h.2,
   fun h => orAlt_none self t _ _ _ h.1 h.2,
   fun h => orAlt_none self t _ _ _ h.1 h.2,
   fun h => orAlt_none self t _ _ _ h.1 h.2,
   fun h => orAlt_none self t _ _ _ h.1 h.2⟩

/-- C8: the queue-utilization guard tests capacity > 0, not capacity ≠ 0,
so any analysis with a negative extracted queue capacity silently gets
utilization 0, regardless of queue size. -/
theorem claimC8_negative_capacity (self : CollectorDiagnostics) (t : String)
    (h : (analyze_export_metrics self t).otlphttp_queue_capacity < 0) :
    (analyze_export_metrics self t).queue_utilization = 0 := by
  have h' : queueCapacityOf self t < 0 := h
  exact if_neg (not_lt.mpr (le_of_lt h'))

section CounterexampleEvaluation

attribute [local semireducible] Rat.add Rat.mul Rat.inv Rat.sub

/-- Counterexample for C1 as stated: in `c1Text` the first alternative of
the sent field is present with value 0, so the claim ("the field equals
the value of the first alternative that is present in the text, including
when that value is 0") demands sentMetrics = 0, yet the code's `or` chain
skips the falsy 0.0 and returns the second alternative's value 5. -/
theorem claimC1_counterexample :
    parse_metric_value dDiag c1Text
      "otelcol_exporter_sent_metric_points__datapoints__total"
      "exporter=\"otlphttp\"" = some 0 ∧
    firstPresentValue
      (parse_metric_value dDiag c1Text
        "otelcol_exporter_sent_metric_points__datapoints__total"
        "exporter=\"otlphttp\"")
      (parse_metric_value dDiag c1Text
        "otelcol_exporter_sent_metric_points_total"
        "exporter=\"otlphttp\"") = 0 ∧
    (analyze_export_metrics dDiag c1Text).otlphttp_sent_metrics = 5 := by
  decide

/-- Counterexample for C6 as stated: on `c6Text` (a metrics text whose
sent counter line carries −5 and whose failed counter line carries 10) the
success rate computed by `analyze_export_metrics` is negative, refuting
"successRate is always in [0, ∞)" over all metrics texts. -/
theorem claimC6_counterexample :
    (analyze_export_metrics dDiag c6Text).success_rate < 0 := by
  decide

/-- Witness for C6 at `w6Text` (sent=95, no failed line): the success rate
is exactly 100. -/
theorem claimC6_witness :
    (analyze_export_metrics dDiag w6Text).success_rate = 100 :=
  (claimC6_success_rate_range dDiag w6Text (by decide) (by decide)).2.2
    (by decide)

/-- Witness for C7 at `w7Text`, whose only candidate line for the sent
field has an unparsable final token: both alternatives are absent and the
field defaults to 0. -/
theorem claimC7_witness :
    (analyze_export_metrics dDiag w7Text).otlphttp_sent_metrics = 0 :=
  (claimC7_absent_defaults_zero dDiag w7Text).1 ⟨by decide, by decide⟩

/-- Witness for C8 at `c8Text` (queue size 10, queue capacity −5): the
utilization is 0. -/
theorem claimC8_witness :
    (analyze_export_metrics dDiag c8Text).queue_utilization = 0 :=
  claimC8_negative_capacity dDiag c8Text (by decide)

end CounterexampleEvaluation
